import Mathlib

/-!
Shallow embedding of the KMX sensor scaled-value library
(`inc/kmx/sensor/data/base.hpp`, `temperature.hpp`, `humidity.hpp`,
`inc/kmx/sensor/data/light_intensity.hpp`), together with proofs about it.

Modelling conventions:
* C++ floating-point arithmetic (`float`) is modelled by exact rational
  arithmetic over `ℚ`.  The machine epsilon of the input type
  (`std::numeric_limits<input_type>::epsilon()`) is carried as a field of the
  traits record so that the epsilon tolerance of `set_value` is represented.
* `std::round` rounds half away from zero; it is modelled by
  `roundAway : ℚ → ℤ`.
* The storage integer type is modelled by `ℤ` together with the explicit
  bounds `storage_min`/`storage_max` of the C++ type
  (`std::numeric_limits<storage_type>::min()/max()`), recorded in the traits.
  The `static_cast<storage_type>` inside `convert_to_scaled` is modelled as
  the identity on `ℤ`: for every instantiation present in the repository the
  scaled range fits inside the storage type
  (`[-500, 500] ⊆ int16`, `[0, 200] ⊆ uint8`, `[0, 65535] ⊆ uint16`),
  so the cast never changes a value that actually occurs.
* The C++ `enum class unit : std::uint8_t` is modelled by its underlying
  ordinal (`Nat` constants), because `text_of` is specified on arbitrary
  ordinals, including ones outside the declared enumerators.
-/

namespace kmx

/-- Ordinal of `unit::celsius` in the C++ `enum class unit : std::uint8_t`. -/
def unit_celsius : Nat := 0

/-- Ordinal of `unit::percent`. -/
def unit_percent : Nat := 1

/-- Ordinal of `unit::lux`. -/
def unit_lux : Nat := 2

/-- Ordinal of `unit::pascal`. -/
def unit_pascal : Nat := 3

/-- Ordinal of `unit::volt`. -/
def unit_volt : Nat := 4

/-- Ordinal of `unit::ampere`. -/
def unit_ampere : Nat := 5

/-- Ordinal of `unit::meter_per_second`, the last declared enumerator. -/
def unit_meter_per_second : Nat := 6

/-- The constant array `items` inside `kmx::text_of` (base.hpp, lines 39-49);
the order matches the `unit` enumeration. -/
def unit_items : List String := ["°C", "%", "lx", "Pa", "V", "A", "m/s"]

/-- Embedding of `kmx::text_of` (base.hpp, lines 36-56): bounds-checked lookup
into `items`; an out-of-range ordinal yields the default-constructed (empty)
`std::string_view`. -/
def text_of (u : Nat) : String :=
  if h : u < unit_items.length then unit_items.get ⟨u, h⟩ else ""

/-- Embedding of `kmx::sensor::data::traits` (base.hpp, lines 73-96): the
compile-time configuration bundle.  `min_value`, `max_value`, `resolution`
and `unit` are the template parameters; `eps` is the machine epsilon of the
input type and `storage_min`/`storage_max` are the bounds of the storage
type, both determined in C++ by the type parameters `_Input` and `_Storage`. -/
structure traits where
  min_value : ℚ
  max_value : ℚ
  resolution : ℚ
  unit : Nat
  eps : ℚ
  storage_min : ℤ
  storage_max : ℤ

/-- The two `static_assert`s of `traits` (base.hpp, lines 94-95):
`resolution > 0` and `min_value <= max_value`. -/
def traits.valid (t : traits) : Prop :=
  0 < t.resolution ∧ t.min_value ≤ t.max_value

instance (t : traits) : Decidable t.valid := by
  unfold traits.valid; infer_instance

/-- Embedding of `std::round` on the rational model: round half away from
zero, the semantics `std::round` is specified with. -/
def roundAway (q : ℚ) : ℤ :=
  if 0 ≤ q then ⌊q + 1/2⌋ else -⌊-q + 1/2⌋

/-- Embedding of `std::clamp(v, lo, hi)`: `lo` if `v < lo`, else `hi` if
`hi < v`, else `v`. -/
def stdClamp (v lo hi : ℚ) : ℚ :=
  if v < lo then lo else if hi < v then hi else v

/-- Embedding of `base::scale_numerator` (base.hpp, line 209). -/
def scale_numerator : ℚ := 1

/-- Embedding of `base::scale_factor = scale_numerator / resolution`
(base.hpp, line 215). -/
def scale_factor (t : traits) : ℚ := scale_numerator / t.resolution

/-- Embedding of `base::convert_to_scaled` (base.hpp, lines 224-228):
multiply by the scale factor and round to the nearest integer
(`std::round`, half away from zero). -/
def convert_to_scaled (t : traits) (val : ℚ) : ℤ :=
  roundAway (val * scale_factor t)

/-- Embedding of `base::convert_to_physical` (base.hpp, lines 235-239):
cast the scaled integer to the input type and divide by the scale factor. -/
def convert_to_physical (t : traits) (val : ℤ) : ℚ :=
  (val : ℚ) / scale_factor t

/-- Embedding of `base::static_min_scaled_value` (base.hpp, line 244). -/
def static_min_scaled_value (t : traits) : ℤ :=
  convert_to_scaled t t.min_value

/-- Embedding of `base::static_max_scaled_value` (base.hpp, line 249). -/
def static_max_scaled_value (t : traits) : ℤ :=
  convert_to_scaled t t.max_value

/-- Embedding of the state of `base` (base.hpp, line 204): the single data
member `std::optional<storage_type> scaled_value_`. -/
structure base where
  scaled_value_ : Option ℤ

/-- Embedding of the default constructor `base()` (base.hpp, line 112):
the optional is empty. -/
def base.mk_default : base := ⟨none⟩

/-- Embedding of the value constructor `base(input_type)` (base.hpp,
lines 117-120): clamp the initial value to the physical range and store its
scaled encoding. -/
def base.mk_value (t : traits) (initial_value : ℚ) : base :=
  ⟨some (convert_to_scaled t (stdClamp initial_value t.min_value t.max_value))⟩

/-- Embedding of `operator bool` / the defined-state test (base.hpp,
line 124). -/
def base.is_defined (s : base) : Bool := s.scaled_value_.isSome

/-- Embedding of `base::value()` (base.hpp, lines 129-134): empty optional
when undefined, otherwise the stored scaled integer converted back to the
physical domain. -/
def base.value (t : traits) (s : base) : Option ℚ :=
  match s.scaled_value_ with
  | none => none
  | some z => some (convert_to_physical t z)

/-- Embedding of `epsilon_limit` inside `base::set_value` (base.hpp,
line 147): 100 times the machine epsilon of the input type. -/
def epsilon_limit (t : traits) : ℚ := t.eps * 100

/-- Embedding of `base::set_value` (base.hpp, lines 141-149): clamp, store
the scaled encoding unconditionally, and return whether the clamping
distance was below the epsilon limit.  The pair is (new state, returned
bool). -/
def base.set_value (t : traits) (s : base) (new_value : ℚ) : base × Bool :=
  let clamped_value := stdClamp new_value t.min_value t.max_value
  let st : base := ⟨some (convert_to_scaled t clamped_value)⟩
  let difference := |new_value - clamped_value|
  (st, decide (difference < epsilon_limit t))

/-- Embedding of `base::raw_scaled_value()` (base.hpp, line 154). -/
def base.raw_scaled_value (s : base) : Option ℤ := s.scaled_value_

/-- Embedding of `base::set_raw_scaled_value` (base.hpp, lines 161-168):
reject (state unchanged, `false`) when the raw value is outside
`[static_min_scaled_value, static_max_scaled_value]`, otherwise store it
and return `true`. -/
def base.set_raw_scaled_value (t : traits) (s : base) (raw_val : ℤ) : base × Bool :=
  if raw_val < static_min_scaled_value t ∨ raw_val > static_max_scaled_value t then
    (s, false)
  else
    (⟨some raw_val⟩, true)

/-- Embedding of `base::clear()` (base.hpp, line 171): reset the optional. -/
def base.clear (_ : base) : base := ⟨none⟩

/-- Embedding of the static accessor `base::unit()` (base.hpp, line 187). -/
def base.unit (t : traits) : Nat := t.unit

/-- Modelled from the spec: `base::unit_string()` (base.hpp, line 191).  The
body in the source calls `to_string_view(traits_type::unit)`, but no function
named `to_string_view` is declared anywhere in the repository (lib.qbs lists
the complete file set; the lookup defined in base.hpp is `text_of`), so the
member cannot be instantiated as written.  This definition follows the spec
wording that `unitText()` is the unit-name lookup applied to the traits'
unit. -/
def unit_string (t : traits) : String := text_of t.unit

/-- Embedding of `temperature_traits` (temperature.hpp, lines 13-22):
`int16` storage, `float` input, range `[-50, 50]`, resolution `0.1`,
unit celsius.  Machine epsilon of `float` is `2 ^ (-23)`. -/
def temperature_traits : traits :=
  ⟨-50, 50, 1/10, unit_celsius, 1/8388608, -32768, 32767⟩

/-- Embedding of `humidity_traits` (humidity.hpp, lines 49-58): `uint8`
storage, `float` input, range `[0, 100]`, resolution `0.5`, unit percent. -/
def humidity_traits : traits :=
  ⟨0, 100, 1/2, unit_percent, 1/8388608, 0, 255⟩

/-- Embedding of `light_intensity_traits` (light_intensity.hpp,
lines 13-22): `uint16` storage, `float` input, range `[0, 65535]`,
resolution `1.0`, unit lux. -/
def light_intensity_traits : traits :=
  ⟨0, 65535, 1, unit_lux, 1/8388608, 0, 65535⟩

/-- The state invariant of the defined state (spec §3): whenever the optional
holds a scaled integer, that integer lies in
`[static_min_scaled_value, static_max_scaled_value]`. -/
def scaled_in_range (t : traits) (s : base) : Prop :=
  ∀ z : ℤ, s.scaled_value_ = some z →
    static_min_scaled_value t ≤ z ∧ z ≤ static_max_scaled_value t

/-- Rounding half away from zero is monotone. -/
theorem roundAway_mono {a b : ℚ} (hab : a ≤ b) : roundAway a ≤ roundAway b := by
  unfold roundAway
  by_cases ha : 0 ≤ a
  · rw [if_pos ha, if_pos (ha.trans hab)]
    exact Int.floor_le_floor (by linarith)
  · rw [if_neg ha]
    by_cases hb : 0 ≤ b
    · rw [if_pos hb]
      have h1 : (0 : ℤ) ≤ ⌊b + 1/2⌋ := Int.floor_nonneg.mpr (by linarith)
      have h2 : (0 : ℤ) ≤ ⌊-a + 1/2⌋ := by
        push_neg at ha
        exact Int.floor_nonneg.mpr (by linarith)
      omega
    · rw [if_neg hb]
      have h3 : ⌊-b + 1/2⌋ ≤ ⌊-a + 1/2⌋ := Int.floor_le_floor (by linarith)
      omega

/-- Rounding half away from zero moves a rational by at most one half. -/
theorem abs_roundAway_sub_le (q : ℚ) : |(roundAway q : ℚ) - q| ≤ 1/2 := by
  unfold roundAway
  by_cases hq : 0 ≤ q
  · rw [if_pos hq, abs_le]
    have h1 : (⌊q + 1/2⌋ : ℚ) ≤ q + 1/2 := Int.floor_le _
    have h2 : q + 1/2 - 1 < (⌊q + 1/2⌋ : ℚ) := Int.sub_one_lt_floor _
    constructor <;> linarith
  · rw [if_neg hq, abs_le]
    have h1 : (⌊-q + 1/2⌋ : ℚ) ≤ -q + 1/2 := Int.floor_le _
    have h2 : -q + 1/2 - 1 < (⌊-q + 1/2⌋ : ℚ) := Int.sub_one_lt_floor _
    push_cast
    constructor <;> linarith

/-- Rounding half away from zero fixes every integer. -/
theorem roundAway_intCast (z : ℤ) : roundAway (z : ℚ) = z := by
  have hhalf : ⌊(1/2 : ℚ)⌋ = 0 := by
    rw [Int.floor_eq_zero_iff]
    constructor <;> norm_num
  unfold roundAway
  by_cases hz : (0 : ℚ) ≤ (z : ℚ)
  · rw [if_pos hz, Int.floor_int_add, hhalf]
    omega
  · rw [if_neg hz]
    have h1 : -(z : ℚ) + 1/2 = ((-z : ℤ) : ℚ) + 1/2 := by push_cast; ring
    rw [h1, Int.floor_int_add, hhalf]
    omega

/-- Clamping a value already inside the bounds is the identity. -/
theorem stdClamp_eq_self {v lo hi : ℚ} (h1 : lo ≤ v) (h2 : v ≤ hi) :
    stdClamp v lo hi = v := by
  unfold stdClamp
  rw [if_neg (not_lt.mpr h1), if_neg (not_lt.mpr h2)]

/-- With ordered bounds, the clamped value lies between the bounds. -/
theorem stdClamp_mem {v lo hi : ℚ} (h : lo ≤ hi) :
    lo ≤ stdClamp v lo hi ∧ stdClamp v lo hi ≤ hi := by
  unfold stdClamp
  split_ifs with hv1 hv2
  · exact ⟨le_refl lo, h⟩
  · exact ⟨h, le_refl hi⟩
  · push_neg at hv1 hv2
    exact ⟨hv1, hv2⟩

/-- A positive resolution gives a positive scale factor. -/
theorem scale_factor_pos (t : traits) (ht : 0 < t.resolution) :
    0 < scale_factor t := by
  unfold scale_factor scale_numerator
  positivity

/-- With positive resolution, `convert_to_scaled` is monotone. -/
theorem convert_to_scaled_mono (t : traits) (ht : 0 < t.resolution)
    {a b : ℚ} (hab : a ≤ b) :
    convert_to_scaled t a ≤ convert_to_scaled t b := by
  unfold convert_to_scaled
  exact roundAway_mono
    (mul_le_mul_of_nonneg_right hab (scale_factor_pos t ht).le)

/-- With positive resolution, decoding a scaled integer and re-encoding the
result gives the integer back: every decoded value is a grid point. -/
theorem convert_to_scaled_physical (t : traits) (ht : 0 < t.resolution)
    (z : ℤ) : convert_to_scaled t (convert_to_physical t z) = z := by
  unfold convert_to_scaled convert_to_physical
  rw [div_mul_cancel₀ _ (ne_of_gt (scale_factor_pos t ht))]
  exact roundAway_intCast z

/-- Encoding any clamped input lands inside the static scaled bounds. -/
theorem convert_clamped_mem (t : traits) (ht : t.valid) (v : ℚ) :
    static_min_scaled_value t ≤
        convert_to_scaled t (stdClamp v t.min_value t.max_value) ∧
    convert_to_scaled t (stdClamp v t.min_value t.max_value) ≤
        static_max_scaled_value t := by
  obtain ⟨hres, hmm⟩ := ht
  obtain ⟨h1, h2⟩ := stdClamp_mem (v := v) hmm
  exact ⟨convert_to_scaled_mono t hres h1, convert_to_scaled_mono t hres h2⟩

/-- The static scaled bounds of the temperature instantiation are
`[-500, 500]`. -/
theorem temperature_scaled_bounds :
    static_min_scaled_value temperature_traits = -500 ∧
    static_max_scaled_value temperature_traits = 500 := by
  constructor <;>
    norm_num [static_min_scaled_value, static_max_scaled_value,
      convert_to_scaled, scale_factor, scale_numerator, temperature_traits,
      roundAway, Int.floor_eq_iff]

/-- The static scaled bounds of the light-intensity instantiation are
`[0, 65535]`, the full range of the `uint16` storage type. -/
theorem light_intensity_scaled_bounds :
    static_min_scaled_value light_intensity_traits = 0 ∧
    static_max_scaled_value light_intensity_traits = 65535 := by
  constructor <;>
    norm_num [static_min_scaled_value, static_max_scaled_value,
      convert_to_scaled, scale_factor, scale_numerator,
      light_intensity_traits, roundAway, Int.floor_eq_iff]

/-- C1: for every instantiation and every raw storage-domain integer,
`set_raw_scaled_value raw` returns `false` and leaves the stored optional
state completely unchanged whenever `raw < static_min_scaled_value` or
`raw > static_max_scaled_value`; otherwise it stores `raw` itself (never a
clamped variant), makes the instance defined, and returns `true`. -/
theorem C1_set_raw_scaled_value_spec (t : traits) (s : base) (raw : ℤ) :
    (raw < static_min_scaled_value t ∨ raw > static_max_scaled_value t →
      base.set_raw_scaled_value t s raw = (s, false)) ∧
    (static_min_scaled_value t ≤ raw → raw ≤ static_max_scaled_value t →
      base.set_raw_scaled_value t s raw = (⟨some raw⟩, true)) := by
  constructor
  · intro h
    unfold base.set_raw_scaled_value
    rw [if_pos h]
  · intro h1 h2
    unfold base.set_raw_scaled_value
    rw [if_neg (by push_neg; exact ⟨h1, h2⟩)]

/-- Witness for C1 at the temperature instantiation: raw value 501 is
rejected with the state unchanged, raw value 250 is stored and accepted. -/
theorem C1_set_raw_scaled_value_spec_witness :
    base.set_raw_scaled_value temperature_traits base.mk_default 501 =
        (base.mk_default, false) ∧
    base.set_raw_scaled_value temperature_traits base.mk_default 250 =
        (⟨some 250⟩, true) := by
  constructor
  · exact (C1_set_raw_scaled_value_spec temperature_traits base.mk_default
      501).1 (Or.inr (by rw [temperature_scaled_bounds.2]; norm_num))
  · exact (C1_set_raw_scaled_value_spec temperature_traits base.mk_default
      250).2 (by rw [temperature_scaled_bounds.1]; norm_num)
      (by rw [temperature_scaled_bounds.2]; norm_num)

/-- C2: `set_value v` always stores the scaled encoding of the clamped input
and makes the instance defined, and it returns `true` exactly when the
distance between the input and its clamped form is below the epsilon limit
of 100 times the machine epsilon of the input type. -/
theorem C2_set_value_spec (t : traits) (s : base) (v : ℚ) :
    (base.set_value t s v).1.scaled_value_ =
        some (convert_to_scaled t (stdClamp v t.min_value t.max_value)) ∧
    base.is_defined (base.set_value t s v).1 = true ∧
    ((base.set_value t s v).2 = true ↔
      |v - stdClamp v t.min_value t.max_value| < epsilon_limit t) := by
  unfold base.set_value base.is_defined
  refine ⟨rfl, rfl, ?_⟩
  simp

/-- Witness for C2 at the temperature instantiation: setting 55 on an
undefined instance clamps (distance 5 is not below the epsilon limit), so
the returned bool is false. -/
theorem C2_set_value_spec_witness :
    (base.set_value temperature_traits base.mk_default 55).2 = false := by
  have h := (C2_set_value_spec temperature_traits base.mk_default 55).2.2
  refine Bool.eq_false_iff.mpr (fun htrue => ?_)
  have h5 := h.mp htrue
  rw [stdClamp, if_neg (by norm_num [temperature_traits]),
    if_pos (by norm_num [temperature_traits])] at h5
  norm_num [temperature_traits, epsilon_limit] at h5

/-- C7: a default-constructed instance is undefined, and after `clear` both
`value` and `raw_scaled_value` are the empty optional regardless of the
prior state; clearing an already-undefined instance is a no-op. -/
theorem C7_default_and_clear_spec (t : traits) (s : base) :
    base.is_defined base.mk_default = false ∧
    base.value t (base.clear s) = none ∧
    base.raw_scaled_value (base.clear s) = none ∧
    (s.scaled_value_ = none → base.clear s = s) := by
  refine ⟨rfl, rfl, rfl, fun h => ?_⟩
  cases s
  simp only [base.clear]
  simp_all

/-- Witness for C7: clearing a default-constructed (already undefined)
instance gives back the same state. -/
theorem C7_default_and_clear_spec_witness :
    base.clear base.mk_default = base.mk_default :=
  (C7_default_and_clear_spec temperature_traits base.mk_default).2.2.2 rfl

/-- C8: the unit-name lookup is total: each of the seven declared
enumerators is mapped to its single canonical display string (in particular
lux to "lx"), and every ordinal beyond `meter_per_second` is mapped to the
empty (unknown) marker instead of failing. -/
theorem C8_text_of_total :
    text_of unit_celsius = "°C" ∧
    text_of unit_percent = "%" ∧
    text_of unit_lux = "lx" ∧
    text_of unit_pascal = "Pa" ∧
    text_of unit_volt = "V" ∧
    text_of unit_ampere = "A" ∧
    text_of unit_meter_per_second = "m/s" ∧
    ∀ n : Nat, unit_meter_per_second < n → text_of n = "" := by
  refine ⟨rfl, rfl, rfl, rfl, rfl, rfl, rfl, fun n hn => ?_⟩
  unfold text_of
  rw [dif_neg]
  simp only [unit_items, unit_meter_per_second] at hn ⊢
  simp only [List.length]
  omega

/-- Witness for C8: ordinal 7, one past the last declared enumerator, is
mapped to the empty marker. -/
theorem C8_text_of_total_witness : text_of 7 = "" :=
  C8_text_of_total.2.2.2.2.2.2.2 7 (by norm_num [unit_meter_per_second])

/-- C3: with valid traits, every operation preserves the defined-state
invariant: a stored scaled integer always lies in the inclusive range
between the scaled encodings of the minimum and maximum physical values.
Default construction and `clear` produce the undefined state (vacuously in
range), construction from a physical value and `set_value` store a clamped
encoding, and `set_raw_scaled_value` either rejects or stores an in-range
raw value. -/
theorem C3_state_invariant (t : traits) (ht : t.valid) (s : base) (v : ℚ)
    (raw : ℤ) :
    scaled_in_range t base.mk_default ∧
    scaled_in_range t (base.mk_value t v) ∧
    (scaled_in_range t s → scaled_in_range t (base.set_value t s v).1) ∧
    (scaled_in_range t s →
      scaled_in_range t (base.set_raw_scaled_value t s raw).1) ∧
    scaled_in_range t (base.clear s) := by
  refine ⟨?_, ?_, ?_, ?_, ?_⟩
  · intro z hz
    simp [base.mk_default] at hz
  · intro z hz
    simp only [base.mk_value, Option.some.injEq] at hz
    exact hz ▸ convert_clamped_mem t ht v
  · intro _ z hz
    simp only [base.set_value, Option.some.injEq] at hz
    exact hz ▸ convert_clamped_mem t ht v
  · intro hs z hz
    unfold base.set_raw_scaled_value at hz
    split_ifs at hz with hcond
    · exact hs z hz
    · push_neg at hcond
      simp only [Option.some.injEq] at hz
      exact hz ▸ hcond
  · intro z hz
    simp [base.clear] at hz

/-- Witness for C3 at the temperature instantiation (valid traits), with an
undefined starting state, physical input 0 and raw input 0. -/
theorem C3_state_invariant_witness :
    temperature_traits.valid ∧
    (scaled_in_range temperature_traits base.mk_default ∧
     scaled_in_range temperature_traits
        (base.mk_value temperature_traits 0) ∧
     (scaled_in_range temperature_traits base.mk_default →
       scaled_in_range temperature_traits
          (base.set_value temperature_traits base.mk_default 0).1) ∧
     (scaled_in_range temperature_traits base.mk_default →
       scaled_in_range temperature_traits
          (base.set_raw_scaled_value temperature_traits base.mk_default 0).1) ∧
     scaled_in_range temperature_traits (base.clear base.mk_default)) :=
  ⟨⟨by norm_num [temperature_traits], by norm_num [temperature_traits]⟩,
    C3_state_invariant temperature_traits
      ⟨by norm_num [temperature_traits], by norm_num [temperature_traits]⟩
      base.mk_default 0 0⟩

/-- C5: round-trip idempotence at grid points: with positive resolution, if
a physical value `q` is already quantized, meaning it equals the decoding
of its own encoding, then encoding the decoded value yields the same scaled
integer again; moreover decoding any scaled integer always produces a grid
point, i.e. re-encoding the decoding of any integer gives that integer
back. -/
theorem C5_roundtrip_idempotence (t : traits) (ht : 0 < t.resolution)
    (q : ℚ) (hq : q = convert_to_physical t (convert_to_scaled t q)) :
    convert_to_scaled t (convert_to_physical t (convert_to_scaled t q)) =
        convert_to_scaled t q ∧
    ∀ z : ℤ, convert_to_scaled t (convert_to_physical t z) = z := by
  refine ⟨?_, convert_to_scaled_physical t ht⟩
  rw [← hq]

/-- Witness for C5 at the temperature instantiation with the grid point 25:
25 encodes to 250, which decodes back to 25. -/
theorem C5_roundtrip_idempotence_witness :
    0 < temperature_traits.resolution ∧
    (25 : ℚ) = convert_to_physical temperature_traits
        (convert_to_scaled temperature_traits 25) ∧
    (convert_to_scaled temperature_traits (convert_to_physical
        temperature_traits (convert_to_scaled temperature_traits 25)) =
      convert_to_scaled temperature_traits 25 ∧
     ∀ z : ℤ, convert_to_scaled temperature_traits
        (convert_to_physical temperature_traits z) = z) := by
  have h1 : convert_to_scaled temperature_traits 25 = 250 := by
    norm_num [convert_to_scaled, scale_factor, scale_numerator,
      temperature_traits, roundAway, Int.floor_eq_iff]
  have hq : (25 : ℚ) = convert_to_physical temperature_traits
      (convert_to_scaled temperature_traits 25) := by
    rw [h1]
    norm_num [convert_to_physical, scale_factor, scale_numerator,
      temperature_traits]
  exact ⟨by norm_num [temperature_traits], hq,
    C5_roundtrip_idempotence temperature_traits
      (by norm_num [temperature_traits]) 25 hq⟩

/-- C9: quantization bound: with valid traits and a physical input inside
the physical range, the instance constructed from the input is defined and
its recovered physical value differs from the input by at most half the
resolution. -/
theorem C9_quantization_bound (t : traits) (ht : t.valid) (v : ℚ)
    (h1 : t.min_value ≤ v) (h2 : v ≤ t.max_value) :
    base.value t (base.mk_value t v) =
        some (convert_to_physical t (convert_to_scaled t v)) ∧
    |convert_to_physical t (convert_to_scaled t v) - v| ≤
        t.resolution / 2 := by
  obtain ⟨hres, hmm⟩ := ht
  have hsf : 0 < scale_factor t := scale_factor_pos t hres
  constructor
  · simp only [base.mk_value, base.value, stdClamp_eq_self h1 h2]
  · have key := abs_roundAway_sub_le (v * scale_factor t)
    have hrs : t.resolution * scale_factor t = 1 := by
      unfold scale_factor scale_numerator
      field_simp
    have heq : convert_to_physical t (convert_to_scaled t v) - v =
        ((roundAway (v * scale_factor t) : ℚ) - v * scale_factor t) /
          scale_factor t := by
      unfold convert_to_physical convert_to_scaled
      field_simp
      ring
    rw [heq, abs_div, abs_of_pos hsf, div_le_iff₀ hsf]
    have hhalf : t.resolution / 2 * scale_factor t = 1/2 := by
      have hr : t.resolution / 2 * scale_factor t =
          t.resolution * scale_factor t / 2 := by ring
      rw [hr, hrs]
    rw [hhalf]
    exact key

/-- Witness for C9 at the temperature instantiation with input 25.03, which
lies inside the range [-50, 50]. -/
theorem C9_quantization_bound_witness :
    temperature_traits.valid ∧
    temperature_traits.min_value ≤ (2503/100 : ℚ) ∧
    (2503/100 : ℚ) ≤ temperature_traits.max_value ∧
    (base.value temperature_traits
        (base.mk_value temperature_traits (2503/100)) =
      some (convert_to_physical temperature_traits
        (convert_to_scaled temperature_traits (2503/100))) ∧
     |convert_to_physical temperature_traits
        (convert_to_scaled temperature_traits (2503/100)) - 2503/100| ≤
       temperature_traits.resolution / 2) :=
  ⟨⟨by norm_num [temperature_traits], by norm_num [temperature_traits]⟩,
    by norm_num [temperature_traits], by norm_num [temperature_traits],
    C9_quantization_bound temperature_traits
      ⟨by norm_num [temperature_traits], by norm_num [temperature_traits]⟩
      (2503/100) (by norm_num [temperature_traits])
      (by norm_num [temperature_traits])⟩

/-- C10: for the light-intensity instantiation the static scaled bounds are
exactly the bounds of the `uint16` storage type, so `set_raw_scaled_value`
accepts every representable raw storage value: for any raw value inside the
storage range it stores the value and returns true, never rejecting. -/
theorem C10_light_intensity_accepts_all (s : base) (raw : ℤ)
    (h1 : light_intensity_traits.storage_min ≤ raw)
    (h2 : raw ≤ light_intensity_traits.storage_max) :
    static_min_scaled_value light_intensity_traits =
        light_intensity_traits.storage_min ∧
    static_max_scaled_value light_intensity_traits =
        light_intensity_traits.storage_max ∧
    base.set_raw_scaled_value light_intensity_traits s raw =
        (⟨some raw⟩, true) := by
  have hb := light_intensity_scaled_bounds
  have hmin : light_intensity_traits.storage_min = 0 := by
    norm_num [light_intensity_traits]
  have hmax : light_intensity_traits.storage_max = 65535 := by
    norm_num [light_intensity_traits]
  rw [hmin] at h1
  rw [hmax] at h2
  refine ⟨by rw [hb.1, hmin], by rw [hb.2, hmax], ?_⟩
  unfold base.set_raw_scaled_value
  rw [if_neg]
  push_neg
  rw [hb.1, hb.2]
  omega

/-- Witness for C10 with the raw storage value 12345, inside the `uint16`
range. -/
theorem C10_light_intensity_accepts_all_witness :
    light_intensity_traits.storage_min ≤ (12345 : ℤ) ∧
    (12345 : ℤ) ≤ light_intensity_traits.storage_max ∧
    (static_min_scaled_value light_intensity_traits =
        light_intensity_traits.storage_min ∧
     static_max_scaled_value light_intensity_traits =
        light_intensity_traits.storage_max ∧
     base.set_raw_scaled_value light_intensity_traits base.mk_default 12345 =
        (⟨some 12345⟩, true)) :=
  ⟨by norm_num [light_intensity_traits], by norm_num [light_intensity_traits],
    C10_light_intensity_accepts_all base.mk_default 12345
      (by norm_num [light_intensity_traits])
      (by norm_num [light_intensity_traits])⟩

/-- C4: evaluation of the unit text of the three concrete instantiations
through the spec-modelled `unit_string` (the source's `unit_string` body
calls the undeclared `to_string_view` instead of `text_of` and therefore
cannot be instantiated as written): applying the unit-name lookup to the
traits' unit yields the canonical display string of each sensor kind. -/
theorem C4_unit_string_eval :
    unit_string temperature_traits = "°C" ∧
    unit_string humidity_traits = "%" ∧
    unit_string light_intensity_traits = "lx" :=
  ⟨rfl, rfl, rfl⟩

/-- C6: concrete temperature scenario (storage int16, range [-50, 50],
resolution 0.1): constructing from 25.03 stores raw scaled integer 250 and
reads back the physical value 25; `set_value 55` returns false and the
value reads back as 50; `set_raw_scaled_value 501` returns false leaving
the state unchanged; `set_raw_scaled_value (-500)` returns true and the
value reads back as -50. -/
theorem C6_temperature_scenario :
    base.raw_scaled_value (base.mk_value temperature_traits (2503/100)) =
        some 250 ∧
    base.value temperature_traits
        (base.mk_value temperature_traits (2503/100)) = some 25 ∧
    (base.set_value temperature_traits
        (base.mk_value temperature_traits (2503/100)) 55).2 = false ∧
    base.value temperature_traits (base.set_value temperature_traits
        (base.mk_value temperature_traits (2503/100)) 55).1 = some 50 ∧
    base.set_raw_scaled_value temperature_traits
        (base.set_value temperature_traits
          (base.mk_value temperature_traits (2503/100)) 55).1 501 =
      ((base.set_value temperature_traits
          (base.mk_value temperature_traits (2503/100)) 55).1, false) ∧
    (base.set_raw_scaled_value temperature_traits
        (base.set_value temperature_traits
          (base.mk_value temperature_traits (2503/100)) 55).1 (-500)).2 =
      true ∧
    base.value temperature_traits (base.set_raw_scaled_value
        temperature_traits (base.set_value temperature_traits
          (base.mk_value temperature_traits (2503/100)) 55).1 (-500)).1 =
      some (-50) := by
  have h250 : convert_to_scaled temperature_traits (2503/100) = 250 := by
    norm_num [convert_to_scaled, scale_factor, scale_numerator,
      temperature_traits, roundAway, Int.floor_eq_iff]
  have h500 : convert_to_scaled temperature_traits 50 = 500 := by
    norm_num [convert_to_scaled, scale_factor, scale_numerator,
      temperature_traits, roundAway, Int.floor_eq_iff]
  have hmk : base.mk_value temperature_traits (2503/100) =
      ⟨some 250⟩ := by
    unfold base.mk_value
    rw [stdClamp_eq_self (by norm_num [temperature_traits])
      (by norm_num [temperature_traits]), h250]
  have hcl : stdClamp 55 temperature_traits.min_value
      temperature_traits.max_value = 50 := by
    unfold stdClamp
    rw [if_neg (by norm_num [temperature_traits]),
      if_pos (by norm_num [temperature_traits])]
    norm_num [temperature_traits]
  have hset : base.set_value temperature_traits (⟨some 250⟩ : base) 55 =
      (⟨some 500⟩, false) := by
    unfold base.set_value
    simp only [hcl, h500]
    rw [Prod.mk.injEq]
    refine ⟨rfl, ?_⟩
    rw [decide_eq_false_iff_not]
    norm_num [epsilon_limit, temperature_traits]
  have hraw501 : base.set_raw_scaled_value temperature_traits
      (⟨some 500⟩ : base) 501 = (⟨some 500⟩, false) := by
    unfold base.set_raw_scaled_value
    rw [if_pos (Or.inr (by rw [temperature_scaled_bounds.2]; norm_num))]
  have hrawneg : base.set_raw_scaled_value temperature_traits
      (⟨some 500⟩ : base) (-500) = (⟨some (-500)⟩, true) := by
    unfold base.set_raw_scaled_value
    rw [if_neg]
    push_neg
    rw [temperature_scaled_bounds.1, temperature_scaled_bounds.2]
    omega
  have hval250 : base.value temperature_traits (⟨some 250⟩ : base) =
      some 25 := by
    show some (convert_to_physical temperature_traits 250) = some 25
    norm_num [convert_to_physical, scale_factor, scale_numerator,
      temperature_traits]
  have hval500 : base.value temperature_traits (⟨some 500⟩ : base) =
      some 50 := by
    show some (convert_to_physical temperature_traits 500) = some 50
    norm_num [convert_to_physical, scale_factor, scale_numerator,
      temperature_traits]
  have hvalneg : base.value temperature_traits (⟨some (-500)⟩ : base) =
      some (-50) := by
    show some (convert_to_physical temperature_traits (-500)) = some (-50)
    norm_num [convert_to_physical, scale_factor, scale_numerator,
      temperature_traits]
  refine ⟨?_, ?_, ?_, ?_, ?_, ?_, ?_⟩
  · rw [hmk]
    rfl
  · rw [hmk, hval250]
  · rw [hmk, hset]
  · rw [hmk, hset, hval500]
  · rw [hmk, hset, hraw501]
  · rw [hmk, hset, hrawneg]
  · rw [hmk, hset, hrawneg, hvalneg]

end kmx
